import Mathlib

/-!
Verification development for the rivian-gear-shop-notifier repository.

The scraper lambda (src/scrapper/main.go) loads the set of already indexed
product ids from DynamoDB, scrapes the gear-shop listing page with colly,
extracts one candidate ProductInfo per matched anchor element, appends the
candidates that pass the parseability check to allProducts, and stores the
ones whose id is not in the loaded known set, returning a summary response.

The notifier lambda (src/notifier/main.go and the unnamed variants) consumes
DynamoDB stream events and publishes one notification per INSERT record.

The embedding below is a direct translation of those Go functions. Strings
stay Lean Strings; Go slices become Lists; the DynamoDB scan result, the
network fetch outcome and the per-record PutItem outcomes are inputs, since
they are the only external effects the control flow branches on.
-/

namespace Scrapper

/-- ProductInfo from src/scrapper/main.go: the record extracted per anchor. -/
structure ProductInfo where
  id : String
  name : String
  sku : String
  price : String
  url : String
deriving DecidableEq, Repr

/-- Response from src/scrapper/main.go: the run summary the Handler returns. -/
structure Response where
  message : String
  numberDiscovered : Nat
  numberIndexed : Nat
deriving DecidableEq, Repr

/-- One matched anchor element, the inputs the OnHTML callback reads from it:
the href attribute, the ChildText of the name selector, the texts of the
descendant p elements in document order (what extractPrice iterates over),
the request URL string, and the value that Query().Get of the sku parameter
returns on that URL (the empty string when the parameter is absent). -/
structure Anchor where
  href : String
  nameText : String
  pTexts : List String
  reqUrl : String
  skuQuery : String
deriving DecidableEq, Repr

/-- Helper for splitSlash: accumulates the current segment (reversed) while
walking the remaining characters. -/
def splitSlashAux (cur : List Char) : List Char → List String
  | [] => [String.mk cur.reverse]
  | c :: rest =>
    if c = '/' then String.mk cur.reverse :: splitSlashAux [] rest
    else splitSlashAux (c :: cur) rest

/-- Models Go strings.Split(s, "/"): splits at every slash, yielding one more
segment than there are slashes, with empty segments kept. -/
def splitSlash (s : String) : List String := splitSlashAux [] s.data

/-- containsDollarSign from src/scrapper/main.go. Go tests strings.Contains
with the one-character pattern of a dollar sign, which holds exactly when
some character of the string is that character. -/
def containsDollarSign (s : String) : Bool := s.data.contains '$'

/-- The loop guard of extractPrice: the element text is nonempty and
contains a dollar sign. -/
def priceGood (t : String) : Bool := t != "" && containsDollarSign t

/-- extractPrice from src/scrapper/main.go: iterate over the texts of all
descendant p elements; whenever a text is nonempty and contains a dollar
sign, overwrite the price variable with it and set priceFound. After the
loop, fall back to the sentinel when nothing was found. -/
def extractPrice (pTexts : List String) : String :=
  let r := pTexts.foldl
    (fun acc t => if priceGood t then (t, true) else acc)
    ("", false)
  if r.2 then r.1 else "N/A"

/-- extractSku from src/scrapper/main.go: when the request URL string has
positive length, take the sku query value when it is nonempty (the sku
variable keeps its zero value, the empty string, otherwise); only when the
URL string is empty is the sentinel assigned. -/
def extractSku (reqUrl skuQuery : String) : String :=
  if 0 < reqUrl.length then
    if skuQuery != "" then skuQuery else ""
  else "N/A"

/-- Id derivation in the OnHTML callback of src/scrapper/main.go: split the
href on slashes and, when the parts slice is nonempty (it always is), take
its final element, which may be the empty string. -/
def extractId (url : String) : String :=
  let parts := splitSlash url
  if 0 < parts.length then parts.getLastD "" else ""

/-- The ProductInfo built from one anchor by the OnHTML callback. -/
def extractRecord (e : Anchor) : ProductInfo :=
  { id := extractId e.href
    name := e.nameText
    sku := extractSku e.reqUrl e.skuQuery
    price := extractPrice e.pTexts
    url := e.href }

/-- The guard in the OnHTML callback: the record enters allProducts only when
id, name, url and price are all nonempty. -/
def isParseable (p : ProductInfo) : Bool :=
  p.id != "" && p.name != "" && p.url != "" && p.price != ""

/-- The mutable state that the OnHTML callback threads through a run: the
allProducts slice, the discoveredProducts slice, and the trace of PutItem
calls issued, each paired with its outcome. -/
structure ScrapeState where
  allProducts : List ProductInfo
  discovered : List ProductInfo
  writes : List (ProductInfo × Bool)
deriving DecidableEq, Repr

/-- One OnHTML callback invocation from src/scrapper/main.go. The known list
is the map loaded by loadExistingProducts (never mutated during a run);
storeOk gives the outcome of the PutItem call for a record. A failed store
is only logged: the record stays in discoveredProducts either way. -/
def processAnchor (known : List String) (storeOk : ProductInfo → Bool)
    (st : ScrapeState) (e : Anchor) : ScrapeState :=
  let p := extractRecord e
  if isParseable p then
    let st1 := { st with allProducts := st.allProducts ++ [p] }
    if known.contains p.id then st1
    else
      { st1 with
        discovered := st1.discovered ++ [p]
        writes := st1.writes ++ [(p, storeOk p)] }
  else st

/-- The extraction-dedup-persist pass over all matched anchors of the page,
in document order, starting from the empty slices. -/
def scrapeRun (known : List String) (storeOk : ProductInfo → Bool)
    (anchors : List Anchor) : ScrapeState :=
  anchors.foldl (processAnchor known storeOk) ⟨[], [], []⟩

/-- The Response built at the end of the Handler: the message counts the
discoveredProducts, numberDiscovered is the length of allProducts and
numberIndexed the length of discoveredProducts. -/
def runResponse (st : ScrapeState) : Response :=
  { message := "Indexed " ++ toString st.discovered.length ++ " new product listings"
    numberDiscovered := st.allProducts.length
    numberIndexed := st.discovered.length }

/-- The parseable candidates of a page, in document order. -/
def parseableRecords (anchors : List Anchor) : List ProductInfo :=
  (anchors.map extractRecord).filter isParseable

/-- The parseable candidates whose id is not in the known set. -/
def newRecords (known : List String) (anchors : List Anchor) : List ProductInfo :=
  (parseableRecords anchors).filter (fun p => !(known.contains p.id))

/-- loadExistingProducts from src/scrapper/main.go. The scan input is none
when the DynamoDB Scan call fails, otherwise the list of scanned items, each
carrying its Id attribute when present. The function builds the membership
structure from the Id attributes found. -/
def loadExistingProducts (scan : Option (List (Option String))) :
    Option (List String) :=
  match scan with
  | none => none
  | some items => some (items.filterMap (fun x => x))

/-- The error values the Handler can return. storeUnavailable is part of the
taxonomy of the specification; the code never returns it (a failed scan ends
in log.Fatalf instead), which the theorems below make precise. -/
inductive RunError where
  | fetchError
  | payloadTooLarge
  | storeUnavailable
deriving DecidableEq, Repr

/-- How one Handler invocation ends: fatalExit models log.Fatalf (the process
terminates, nothing is returned), errorResult a normal error return, and
success the returned summary. -/
inductive HandlerOutcome where
  | fatalExit
  | errorResult (e : RunError)
  | success (r : Response)
deriving DecidableEq, Repr

/-- Handler outcome together with the trace of attempted PutItem calls. -/
structure HandlerResult where
  outcome : HandlerOutcome
  writes : List (ProductInfo × Bool)
deriving DecidableEq, Repr

/-- The Handler after the known set is loaded: when the Visit succeeds the
OnHTML callbacks run over the anchors (writes included), then the marshalled
allProducts payload is checked against the 6 MB ceiling (json.Marshal cannot
fail on this struct, so only its output length matters and is abstracted as
marshalLen); when the Visit fails, the error is returned with no callback
having run. -/
def handlerCore (known : List String) (storeOk : ProductInfo → Bool)
    (marshalLen : List ProductInfo → Nat) (fetchOk : Bool)
    (anchors : List Anchor) : HandlerResult :=
  if fetchOk then
    let st := scrapeRun known storeOk anchors
    if marshalLen st.allProducts > 6 * 1024 * 1024 then
      { outcome := .errorResult .payloadTooLarge, writes := st.writes }
    else
      { outcome := .success (runResponse st), writes := st.writes }
  else { outcome := .errorResult .fetchError, writes := [] }

/-- Handler from src/scrapper/main.go: load the known products first; a scan
failure hits log.Fatalf, so the function never returns and no fetch result
is used; otherwise run the pipeline. -/
def Handler (scan : Option (List (Option String))) (storeOk : ProductInfo → Bool)
    (marshalLen : List ProductInfo → Nat) (fetchOk : Bool)
    (anchors : List Anchor) : HandlerResult :=
  match loadExistingProducts scan with
  | none => { outcome := .fatalExit, writes := [] }
  | some known => handlerCore known storeOk marshalLen fetchOk anchors

end Scrapper

namespace Notifier

/-- One DynamoDB stream record as read by the notifier Handler: the event
name and the four string attributes it extracts from Change.NewImage. -/
structure StreamRecord where
  eventName : String
  id : String
  name : String
  price : String
  url : String
deriving DecidableEq, Repr

/-- The loop state of the notifier Handler: the products slice, the trace of
published notifications (SNS publishes are modelled as succeeding), and
whether the loop has executed a break. -/
structure NotifierState where
  products : List String
  notifications : List String
  broke : Bool
deriving DecidableEq, Repr

/-- The notification message built for one INSERT record. -/
def notifMessage (r : StreamRecord) : String :=
  "New Rivian Gear Shop product added: " ++ r.name ++
    ", Url: https://rivian.com" ++ r.url ++ ", Price: " ++ r.price

/-- The record loop of the notifier Handler (src/notifier/main.go). For an
INSERT record with Id, Name and GearShopUrl all empty the loop breaks; in
local mode it breaks after recording the product without publishing;
otherwise it publishes and continues with the next record. -/
def processRecords (isLocal : Bool) (st : NotifierState) :
    List StreamRecord → NotifierState
  | [] => st
  | r :: rest =>
    if r.eventName == "INSERT" then
      if r.id == "" && r.name == "" && r.url == "" then
        { st with broke := true }
      else
        let st1 := { st with products := st.products ++ [r.id] }
        if isLocal then { st1 with broke := true }
        else
          processRecords isLocal
            { st1 with notifications := st1.notifications ++ [notifMessage r] }
            rest
    else processRecords isLocal st rest

/-- The value the notifier Handler returns, with the notification trace. -/
structure NotifierResponse where
  message : String
  products : List String
  notifications : List String
deriving DecidableEq, Repr

/-- Handler from src/notifier/main.go: loop over the records, then report the
total number of events received, whether or not the loop broke early. -/
def Handler (isLocal : Bool) (records : List StreamRecord) : NotifierResponse :=
  let st := processRecords isLocal ⟨[], [], false⟩ records
  { message := "Successfully processed " ++ toString records.length ++
      " DynamoDB stream event(s)"
    products := st.products
    notifications := st.notifications }

end Notifier

namespace Scrapper

/-- The callback fold, from an arbitrary starting state: it appends the
parseable records to allProducts, the unknown parseable records to
discoveredProducts, and one PutItem attempt per unknown parseable record to
the write trace. -/
theorem foldl_processAnchor (known : List String) (ok : ProductInfo → Bool)
    (anchors : List Anchor) : ∀ st : ScrapeState,
    anchors.foldl (processAnchor known ok) st =
      ⟨st.allProducts ++ parseableRecords anchors,
       st.discovered ++ newRecords known anchors,
       st.writes ++ (newRecords known anchors).map (fun p => (p, ok p))⟩ := by
  induction anchors with
  | nil =>
    intro st
    simp [parseableRecords, newRecords]
  | cons e rest ih =>
    intro st
    rw [List.foldl_cons, ih]
    by_cases hp : isParseable (extractRecord e) = true
    · by_cases hk : (extractRecord e).id ∈ known
      · simp [processAnchor, parseableRecords, newRecords, hp, hk,
          List.filter_cons]
      · simp [processAnchor, parseableRecords, newRecords, hp, hk,
          List.filter_cons]
    · simp [processAnchor, parseableRecords, newRecords, hp, List.filter_cons]

/-- The run state in closed form. -/
theorem scrapeRun_spec (known : List String) (ok : ProductInfo → Bool)
    (anchors : List Anchor) :
    scrapeRun known ok anchors =
      ⟨parseableRecords anchors, newRecords known anchors,
       (newRecords known anchors).map (fun p => (p, ok p))⟩ := by
  rw [scrapeRun, foldl_processAnchor]
  simp

/-- A nonempty string has positive length. -/
theorem length_pos_of_ne (s : String) (h : s ≠ "") : 0 < s.length := by
  cases s with
  | mk data =>
    cases data with
    | nil => exact absurd rfl h
    | cons c cs => simp [String.length]

/-- The price fold in closed form: it returns the last good text (default
the starting value) and whether any good text was seen. -/
theorem price_foldl (l : List String) : ∀ s : String × Bool,
    l.foldl (fun acc t => if priceGood t then (t, true) else acc) s =
      ((l.filter priceGood).getLastD s.1, s.2 || l.any priceGood) := by
  induction l with
  | nil => intro s; simp
  | cons t rest ih =>
    intro s
    rw [List.foldl_cons]
    by_cases h : priceGood t = true
    · rw [if_pos h, ih]
      simp only [List.filter_cons, h, if_true, List.getLastD_cons,
        List.any_cons, Bool.true_or, Bool.or_true]
    · rw [if_neg h, ih]
      simp [List.filter_cons, h]

/-- The split helper never returns an empty list. -/
theorem splitSlashAux_ne_nil (l : List Char) : ∀ cur, splitSlashAux cur l ≠ [] := by
  induction l with
  | nil => intro cur; simp [splitSlashAux]
  | cons c rest ih =>
    intro cur
    by_cases h : c = '/'
    · simp [splitSlashAux, h]
    · simpa [splitSlashAux, h] using ih (c :: cur)

/-- Splitting a character list that ends in a slash yields an empty final
segment. -/
theorem splitSlashAux_trailing (l : List Char) : ∀ (cur : List Char) (d : String),
    (splitSlashAux cur (l ++ ['/'])).getLastD d = "" := by
  induction l with
  | nil =>
    intro cur d
    simp [splitSlashAux, List.getLastD_cons]
  | cons c rest ih =>
    intro cur d
    by_cases h : c = '/'
    · simp only [List.cons_append, splitSlashAux, h, if_true]
      rw [List.getLastD_cons]
      exact ih [] _
    · simp only [List.cons_append, splitSlashAux, h, if_false]
      exact ih (c :: cur) d

end Scrapper

namespace Notifier

/-- Processing a concatenation when the first part does not break: the loop
runs the first part to completion and continues with the second. -/
theorem processRecords_append (l : Bool) (xs ys : List StreamRecord) :
    ∀ st : NotifierState, (processRecords l st xs).broke = false →
      processRecords l st (xs ++ ys) =
        processRecords l (processRecords l st xs) ys := by
  induction xs with
  | nil => intro st _; simp [processRecords]
  | cons r rest ih =>
    intro st h
    by_cases hI : (r.eventName == "INSERT") = true
    · by_cases hbad : (r.id == "" && r.name == "" && r.url == "") = true
      · simp [processRecords, hI, hbad] at h
      · by_cases hl : l = true
        · simp [processRecords, hI, hbad, hl] at h
        · have hl2 : l = false := by
            cases l
            · rfl
            · exact absurd rfl hl
          subst hl2
          simp [processRecords, hI, hbad] at h ⊢
          exact ih _ h
    · simp only [List.cons_append, processRecords, hI, if_false] at h ⊢
      exact ih _ h

end Notifier

namespace Scrapper

/-- C1: a candidate whose id is a member of the known set loaded at the
start of the run is never appended to discoveredProducts and no store write
is attempted for it, whatever its name, price, sku or url. -/
theorem known_id_never_stored (known : List String) (ok : ProductInfo → Bool)
    (anchors : List Anchor) (p : ProductInfo)
    (h : known.contains p.id = true) :
    p ∉ (scrapeRun known ok anchors).discovered ∧
      ∀ b : Bool, (p, b) ∉ (scrapeRun known ok anchors).writes := by
  rw [scrapeRun_spec]
  constructor
  · intro hmem
    simp only [newRecords, List.mem_filter] at hmem
    rw [h] at hmem
    simp at hmem
  · intro b hmem
    simp only [List.mem_map] at hmem
    obtain ⟨q, hq, heq⟩ := hmem
    have hqp : q = p := congrArg Prod.fst heq
    subst hqp
    simp only [newRecords, List.mem_filter] at hq
    rw [h] at hq
    simp at hq

/-- Witness for known_id_never_stored at a concrete known set, anchor list
and candidate. -/
theorem known_id_never_stored_witness :
    ((["abc123"] : List String).contains
        (⟨"abc123", "Trail Hat", "", "$35.00", "/products/abc123"⟩ : ProductInfo).id = true) ∧
    ((⟨"abc123", "Trail Hat", "", "$35.00", "/products/abc123"⟩ : ProductInfo) ∉
        (scrapeRun ["abc123"] (fun _ => true)
          [⟨"/products/abc123", "Trail Hat", ["$35.00"], "https://rivian.com/gear-shop", ""⟩]).discovered ∧
      ∀ b : Bool,
        ((⟨"abc123", "Trail Hat", "", "$35.00", "/products/abc123"⟩ : ProductInfo), b) ∉
          (scrapeRun ["abc123"] (fun _ => true)
            [⟨"/products/abc123", "Trail Hat", ["$35.00"], "https://rivian.com/gear-shop", ""⟩]).writes) :=
  ⟨by decide, known_id_never_stored _ _ _ _ (by decide)⟩

/-- C3 counterexample: an anchor carrying only a name (empty href, hence
empty id and empty url) is not appended to allProducts, while the claim
requires a candidate with only the name set to be present. -/
theorem only_name_candidate_dropped :
    (extractRecord ⟨"", "Trail Hat", ["$35.00"], "https://rivian.com/gear-shop", ""⟩).name = "Trail Hat" ∧
    (extractRecord ⟨"", "Trail Hat", ["$35.00"], "https://rivian.com/gear-shop", ""⟩).id = "" ∧
    (extractRecord ⟨"", "Trail Hat", ["$35.00"], "https://rivian.com/gear-shop", ""⟩).url = "" ∧
    (scrapeRun [] (fun _ => true)
      [⟨"", "Trail Hat", ["$35.00"], "https://rivian.com/gear-shop", ""⟩]).allProducts = [] := by
  decide

/-- C3 amended: a candidate enters allProducts exactly when it is extracted
from some matched anchor and its id, name, url and price are all nonempty;
the code conjoins the four checks, so a candidate with only the name set is
dropped. -/
theorem mem_allProducts_iff (known : List String) (ok : ProductInfo → Bool)
    (anchors : List Anchor) (p : ProductInfo) :
    p ∈ (scrapeRun known ok anchors).allProducts ↔
      (∃ e ∈ anchors, extractRecord e = p) ∧ isParseable p = true := by
  rw [scrapeRun_spec]
  show p ∈ parseableRecords anchors ↔ _
  simp only [parseableRecords, List.mem_filter, List.mem_map]

/-- C4 counterexample: with a single new record whose store write fails, the
summary still reports one indexed record even though zero writes succeeded,
so numberIndexed counts attempts, not successes. -/
theorem failed_write_counted_indexed :
    (runResponse (scrapeRun [] (fun _ => false)
      [⟨"/products/abc123", "Trail Hat", ["$35.00"], "https://rivian.com/gear-shop", ""⟩])).numberIndexed = 1 ∧
    ((scrapeRun [] (fun _ => false)
      [⟨"/products/abc123", "Trail Hat", ["$35.00"], "https://rivian.com/gear-shop", ""⟩]).writes.filter
        (fun w => w.2)).length = 0 := by
  decide

/-- C4 amended: a per-record store failure is recovered locally: every new
record gets its own independent write attempt carrying its own outcome, the
batch of new records does not depend on the write outcomes at all, and
numberIndexed equals the number of write attempts (failed ones included)
rather than the number of successful writes. -/
theorem writes_per_discovered (known : List String)
    (ok1 ok2 : ProductInfo → Bool) (anchors : List Anchor) :
    (scrapeRun known ok1 anchors).writes =
      (scrapeRun known ok1 anchors).discovered.map (fun p => (p, ok1 p)) ∧
    (scrapeRun known ok1 anchors).discovered =
      (scrapeRun known ok2 anchors).discovered ∧
    (runResponse (scrapeRun known ok1 anchors)).numberIndexed =
      (scrapeRun known ok1 anchors).writes.length := by
  simp only [scrapeRun_spec]
  simp [runResponse]

/-- The post-load Handler with a successful fetch, in closed form: the 6 MB
guard decides between the payload error and the summary. -/
theorem handlerCore_guard (known : List String) (ok : ProductInfo → Bool)
    (ml : List ProductInfo → Nat) (anchors : List Anchor) :
    handlerCore known ok ml true anchors =
      if ml (parseableRecords anchors) > 6 * 1024 * 1024 then
        { outcome := .errorResult .payloadTooLarge,
          writes := (newRecords known anchors).map (fun p => (p, ok p)) }
      else
        { outcome := .success
            ⟨"Indexed " ++ toString (newRecords known anchors).length ++
              " new product listings",
             (parseableRecords anchors).length, (newRecords known anchors).length⟩,
          writes := (newRecords known anchors).map (fun p => (p, ok p)) } := by
  simp [handlerCore, scrapeRun_spec, runResponse]

/-- C2: when the second run loads a known set containing the id of every
parseable candidate of the unchanged page, and the first run returned a
summary (so the payload guard passes for this page), the second run returns
a summary with numberIndexed equal to zero. -/
theorem second_run_indexes_nothing (s1 s2 : List (Option String))
    (ok1 ok2 : ProductInfo → Bool) (ml : List ProductInfo → Nat)
    (anchors : List Anchor) (r1 : Response)
    (h1 : (Handler (some s1) ok1 ml true anchors).outcome = .success r1)
    (hknown : ∀ p ∈ parseableRecords anchors,
      (s2.filterMap (fun x => x)).contains p.id = true) :
    ∃ r2, (Handler (some s2) ok2 ml true anchors).outcome = .success r2 ∧
      r2.numberIndexed = 0 := by
  have hload1 : Handler (some s1) ok1 ml true anchors =
      handlerCore (s1.filterMap (fun x => x)) ok1 ml true anchors := rfl
  have hload2 : Handler (some s2) ok2 ml true anchors =
      handlerCore (s2.filterMap (fun x => x)) ok2 ml true anchors := rfl
  rw [hload1, handlerCore_guard] at h1
  rw [hload2, handlerCore_guard]
  by_cases hg : ml (parseableRecords anchors) > 6 * 1024 * 1024
  · rw [if_pos hg] at h1
    exact absurd h1 (by simp)
  · rw [if_neg hg]
    have hnil : newRecords (s2.filterMap (fun x => x)) anchors = [] := by
      rw [newRecords]
      refine List.filter_eq_nil_iff.mpr ?_
      intro a ha
      rw [hknown a ha]
      simp
    rw [hnil]
    exact ⟨_, rfl, rfl⟩

/-- Witness for second_run_indexes_nothing at a concrete page and stores. -/
theorem second_run_indexes_nothing_witness :
    ((Handler (some []) (fun _ => true) (fun _ => 0) true
        [⟨"/products/abc123", "Trail Hat", ["$35.00"], "https://rivian.com/gear-shop", ""⟩]).outcome =
      .success ⟨"Indexed 1 new product listings", 1, 1⟩) ∧
    (∀ p ∈ parseableRecords
        [⟨"/products/abc123", "Trail Hat", ["$35.00"], "https://rivian.com/gear-shop", ""⟩],
      (([some "abc123"] : List (Option String)).filterMap (fun x => x)).contains p.id = true) ∧
    (∃ r2, (Handler (some [some "abc123"]) (fun _ => true) (fun _ => 0) true
        [⟨"/products/abc123", "Trail Hat", ["$35.00"], "https://rivian.com/gear-shop", ""⟩]).outcome =
          .success r2 ∧ r2.numberIndexed = 0) :=
  ⟨by decide, by decide,
    second_run_indexes_nothing [] [some "abc123"] (fun _ => true) (fun _ => true)
      (fun _ => 0)
      [⟨"/products/abc123", "Trail Hat", ["$35.00"], "https://rivian.com/gear-shop", ""⟩]
      ⟨"Indexed 1 new product listings", 1, 1⟩ (by decide) (by decide)⟩

/-- C5 counterexample: the same unknown product appearing behind two anchors
on one page is appended to discoveredProducts twice and written twice; no
run-local seen set suppresses the second occurrence. -/
theorem duplicate_anchor_stored_twice :
    ((scrapeRun [] (fun _ => true)
      [⟨"/products/abc123", "Trail Hat", ["$35.00"], "https://rivian.com/gear-shop", ""⟩,
       ⟨"/products/abc123", "Trail Hat", ["$35.00"], "https://rivian.com/gear-shop", ""⟩]).discovered.length = 2) ∧
    ((scrapeRun [] (fun _ => true)
      [⟨"/products/abc123", "Trail Hat", ["$35.00"], "https://rivian.com/gear-shop", ""⟩,
       ⟨"/products/abc123", "Trail Hat", ["$35.00"], "https://rivian.com/gear-shop", ""⟩]).writes.length = 2) := by
  decide

/-- C5 amended: two parseable candidates on one page carrying the same id
not present in the known set are BOTH appended to discoveredProducts and
both get a store write attempt: the known map is never updated during a
run, and the code keeps no run-local seen set. -/
theorem duplicate_id_written_twice (known : List String)
    (ok : ProductInfo → Bool) (pre mid post : List Anchor) (a1 a2 : Anchor)
    (hp1 : isParseable (extractRecord a1) = true)
    (hp2 : isParseable (extractRecord a2) = true)
    (hid : (extractRecord a2).id = (extractRecord a1).id)
    (hk : known.contains (extractRecord a1).id = false) :
    2 ≤ ((scrapeRun known ok (pre ++ a1 :: (mid ++ a2 :: post))).discovered.countP
        (fun p => p.id == (extractRecord a1).id)) ∧
    2 ≤ ((scrapeRun known ok (pre ++ a1 :: (mid ++ a2 :: post))).writes.countP
        (fun w => w.1.id == (extractRecord a1).id)) := by
  have hk2 : (extractRecord a1).id ∉ known := by simpa using hk
  have hsplit : newRecords known (pre ++ a1 :: (mid ++ a2 :: post)) =
      newRecords known pre ++ (extractRecord a1 ::
        (newRecords known mid ++ (extractRecord a2 :: newRecords known post))) := by
    simp [newRecords, parseableRecords, List.filter_append, List.map_append,
      List.filter_cons, List.map_cons, hp1, hp2, hid, hk2]
  simp only [scrapeRun_spec, hsplit]
  constructor
  · simp only [List.countP_append, List.countP_cons, hid, beq_self_eq_true,
      if_true]
    omega
  · simp only [List.map_append, List.map_cons, List.countP_append,
      List.countP_cons, hid, beq_self_eq_true, if_true]
    omega

/-- Witness for duplicate_id_written_twice at a concrete duplicated anchor. -/
theorem duplicate_id_written_twice_witness :
    (isParseable (extractRecord
      ⟨"/products/abc123", "Trail Hat", ["$35.00"], "https://rivian.com/gear-shop", ""⟩) = true) ∧
    ((extractRecord ⟨"/products/abc123", "Trail Hat", ["$35.00"], "https://rivian.com/gear-shop", ""⟩).id =
      (extractRecord ⟨"/products/abc123", "Trail Hat", ["$35.00"], "https://rivian.com/gear-shop", ""⟩).id) ∧
    (([] : List String).contains
      (extractRecord ⟨"/products/abc123", "Trail Hat", ["$35.00"], "https://rivian.com/gear-shop", ""⟩).id = false) ∧
    (2 ≤ ((scrapeRun [] (fun _ => true)
        ([] ++ ⟨"/products/abc123", "Trail Hat", ["$35.00"], "https://rivian.com/gear-shop", ""⟩ ::
          ([] ++ ⟨"/products/abc123", "Trail Hat", ["$35.00"], "https://rivian.com/gear-shop", ""⟩ :: []))).discovered.countP
        (fun p => p.id ==
          (extractRecord ⟨"/products/abc123", "Trail Hat", ["$35.00"], "https://rivian.com/gear-shop", ""⟩).id)) ∧
     2 ≤ ((scrapeRun [] (fun _ => true)
        ([] ++ ⟨"/products/abc123", "Trail Hat", ["$35.00"], "https://rivian.com/gear-shop", ""⟩ ::
          ([] ++ ⟨"/products/abc123", "Trail Hat", ["$35.00"], "https://rivian.com/gear-shop", ""⟩ :: []))).writes.countP
        (fun w => w.1.id ==
          (extractRecord ⟨"/products/abc123", "Trail Hat", ["$35.00"], "https://rivian.com/gear-shop", ""⟩).id))) :=
  ⟨by decide, rfl, by decide,
    duplicate_id_written_twice [] (fun _ => true) [] [] [] _ _
      (by decide) (by decide) rfl (by decide)⟩

/-- C6 counterexample: the page URL has no sku query parameter, yet the
extracted sku is the empty string, not the sentinel the claim requires. -/
theorem sku_absent_yields_empty_string :
    extractSku "https://rivian.com/gear-shop" "" = "" ∧
    extractSku "https://rivian.com/gear-shop" "" ≠ "N/A" := by
  decide

/-- C6 amended: when the request URL string is nonempty (always the case for
a fetched page) and the sku query parameter is absent, the extracted sku is
the empty string; the sentinel is assigned only in the unreachable branch
where the URL string itself is empty. -/
theorem sku_empty_when_param_absent (u : String) (h : u ≠ "") :
    extractSku u "" = "" ∧ extractSku "" "" = "N/A" := by
  refine ⟨?_, by decide⟩
  have hl : 0 < u.length := length_pos_of_ne u h
  simp [extractSku, hl]

/-- Witness for sku_empty_when_param_absent at the gear-shop URL. -/
theorem sku_empty_when_param_absent_witness :
    ("https://rivian.com/gear-shop" : String) ≠ "" ∧
    (extractSku "https://rivian.com/gear-shop" "" = "" ∧
      extractSku "" "" = "N/A") :=
  ⟨by decide, sku_empty_when_param_absent _ (by decide)⟩

/-- C7 counterexample: with two dollar-bearing texts, the second one is
returned, so the first matching element in document order does not win. -/
theorem price_last_match_example :
    extractPrice ["$1.00", "$2.00"] = "$2.00" ∧
    extractPrice ["$1.00", "$2.00"] ≠ "$1.00" := by
  decide

/-- C7 amended: among the descendant p texts in document order, the LAST
nonempty text containing a dollar sign wins (each later match overwrites
the price variable) and is returned verbatim; when no text matches, the
sentinel is returned. -/
theorem extractPrice_last_match (pTexts : List String) :
    extractPrice pTexts = (pTexts.filter priceGood).getLastD "N/A" := by
  simp only [extractPrice]
  rw [price_foldl]
  by_cases h : pTexts.any priceGood = true
  · cases h2 : pTexts.filter priceGood with
    | nil =>
      obtain ⟨a, ha, hpa⟩ := List.any_eq_true.mp h
      have hmem : a ∈ pTexts.filter priceGood := List.mem_filter.mpr ⟨ha, hpa⟩
      rw [h2] at hmem
      simp at hmem
    | cons y ys =>
      simp only [h, Bool.false_or, if_true, h2, List.getLastD_cons]
  · have hf : pTexts.any priceGood = false := by simpa using h
    have hnil : pTexts.filter priceGood = [] := by
      refine List.filter_eq_nil_iff.mpr ?_
      intro a ha
      have := List.any_eq_false.mp hf a ha
      simpa using this
    simp [hf, hnil]

/-- C8 counterexample: an href ending in a trailing slash yields the empty
string as id, not the last non-empty segment. -/
theorem trailing_slash_empty_id_example :
    extractId "/products/abc123/" = "" ∧
    extractId "/products/abc123/" ≠ "abc123" := by
  decide

/-- C8 amended: the id is the final segment of splitting the href on
slashes, including an empty final segment: an href ending in a trailing
slash yields an empty id, and the anchor's record then fails the parseable
check, rather than receiving the last non-empty segment. -/
theorem trailing_slash_empty_id (url : String) (e : Anchor)
    (he : e.href = url ++ "/") :
    extractId (url ++ "/") = "" ∧ isParseable (extractRecord e) = false := by
  have hdata : (url ++ "/").data = url.data ++ ['/'] := by
    rw [String.data_append]
  have hne : splitSlash (url ++ "/") ≠ [] := by
    rw [splitSlash]
    exact splitSlashAux_ne_nil _ []
  have hlen : 0 < (splitSlash (url ++ "/")).length := List.length_pos.mpr hne
  have hid2 : extractId (url ++ "/") = "" := by
    simp only [extractId]
    rw [if_pos hlen, splitSlash, hdata]
    exact splitSlashAux_trailing url.data [] ""
  refine ⟨hid2, ?_⟩
  have hrec : (extractRecord e).id = "" := by
    simp [extractRecord, he, hid2]
  simp [isParseable, hrec]

/-- Witness for trailing_slash_empty_id at a concrete anchor. -/
theorem trailing_slash_empty_id_witness :
    ((⟨"/products/abc123/", "Trail Hat", ["$35.00"], "https://rivian.com/gear-shop", ""⟩ : Anchor).href =
      "/products/abc123" ++ "/") ∧
    (extractId ("/products/abc123" ++ "/") = "" ∧
      isParseable (extractRecord
        ⟨"/products/abc123/", "Trail Hat", ["$35.00"], "https://rivian.com/gear-shop", ""⟩) = false) :=
  ⟨by decide, trailing_slash_empty_id "/products/abc123" _ (by decide)⟩

/-- C9 counterexample: when the known-set scan fails, the Handler outcome is
the log.Fatalf process exit, not an error return carrying StoreUnavailable. -/
theorem scan_failure_fatal_example :
    (Handler none (fun _ => true) (fun _ => 0) true []).outcome =
      HandlerOutcome.fatalExit ∧
    (Handler none (fun _ => true) (fun _ => 0) true []).outcome ≠
      HandlerOutcome.errorResult RunError.storeUnavailable := by
  decide

/-- C9 amended: when the known-set scan fails, the run aborts before any
fetch result is used, with no store write attempted and no summary
produced; but the abort happens through log.Fatalf terminating the process,
not by surfacing StoreUnavailable as the Handler's returned error. -/
theorem scan_failure_fatal (ok : ProductInfo → Bool)
    (ml : List ProductInfo → Nat) (fetchOk : Bool) (anchors : List Anchor) :
    Handler none ok ml fetchOk anchors = ⟨HandlerOutcome.fatalExit, []⟩ := rfl

end Scrapper

namespace Notifier

/-- C10: once the notifier loop reaches an INSERT record whose Id, Name and
GearShopUrl are all empty, it breaks: that record and every later record of
the batch add no product and trigger no notification, while the returned
message still reports the total number of events received. -/
theorem notifier_break_skips_rest (isLocal : Bool)
    (pre rest : List StreamRecord) (bad : StreamRecord)
    (hin : bad.eventName = "INSERT") (hid : bad.id = "")
    (hname : bad.name = "") (hurl : bad.url = "")
    (hpre : (processRecords isLocal ⟨[], [], false⟩ pre).broke = false) :
    (Handler isLocal (pre ++ bad :: rest)).products =
      (Handler isLocal pre).products ∧
    (Handler isLocal (pre ++ bad :: rest)).notifications =
      (Handler isLocal pre).notifications ∧
    (Handler isLocal (pre ++ bad :: rest)).message =
      "Successfully processed " ++ toString (pre.length + 1 + rest.length) ++
        " DynamoDB stream event(s)" := by
  have hstep : processRecords isLocal ⟨[], [], false⟩ (pre ++ bad :: rest) =
      ⟨(processRecords isLocal ⟨[], [], false⟩ pre).products,
       (processRecords isLocal ⟨[], [], false⟩ pre).notifications, true⟩ := by
    rw [processRecords_append isLocal pre (bad :: rest) _ hpre]
    simp [processRecords, hin, hid, hname, hurl]
  have hlen : (pre ++ bad :: rest).length = pre.length + 1 + rest.length := by
    simp [List.length_append]
    omega
  simp only [Handler, hstep]
  exact ⟨trivial, trivial, by rw [hlen]⟩

/-- Witness for notifier_break_skips_rest: one valid INSERT, then the
unparseable INSERT, then another valid INSERT that goes unprocessed. -/
theorem notifier_break_skips_rest_witness :
    ((⟨"INSERT", "", "", "$9", ""⟩ : StreamRecord).eventName = "INSERT") ∧
    ((processRecords false ⟨[], [], false⟩
        [⟨"INSERT", "a", "A", "$1", "/p/a"⟩]).broke = false) ∧
    ((Handler false ([⟨"INSERT", "a", "A", "$1", "/p/a"⟩] ++
        (⟨"INSERT", "", "", "$9", ""⟩ : StreamRecord) ::
          [⟨"INSERT", "b", "B", "$2", "/p/b"⟩])).products =
      (Handler false [⟨"INSERT", "a", "A", "$1", "/p/a"⟩]).products ∧
     (Handler false ([⟨"INSERT", "a", "A", "$1", "/p/a"⟩] ++
        (⟨"INSERT", "", "", "$9", ""⟩ : StreamRecord) ::
          [⟨"INSERT", "b", "B", "$2", "/p/b"⟩])).notifications =
      (Handler false [⟨"INSERT", "a", "A", "$1", "/p/a"⟩]).notifications ∧
     (Handler false ([⟨"INSERT", "a", "A", "$1", "/p/a"⟩] ++
        (⟨"INSERT", "", "", "$9", ""⟩ : StreamRecord) ::
          [⟨"INSERT", "b", "B", "$2", "/p/b"⟩])).message =
      "Successfully processed " ++
        toString (([⟨"INSERT", "a", "A", "$1", "/p/a"⟩] : List StreamRecord).length + 1 +
          ([⟨"INSERT", "b", "B", "$2", "/p/b"⟩] : List StreamRecord).length) ++
        " DynamoDB stream event(s)") :=
  ⟨rfl, by decide,
    notifier_break_skips_rest false [⟨"INSERT", "a", "A", "$1", "/p/a"⟩]
      [⟨"INSERT", "b", "B", "$2", "/p/b"⟩] ⟨"INSERT", "", "", "$9", ""⟩
      rfl rfl rfl rfl (by decide)⟩

end Notifier

